import Mathlib

/-!
Shallow embedding of `marsutils` (`src/marsutils/controlmanager.py`):
the `ControlInterface` base class and the `ControlManager` mode selector.

Modelling conventions:
* A Python `ControlInterface` object is a record carrying an `id` (object
  identity), the `_DISPLAY_NAME` attribute (which may be absent, a non-`str`
  value, or a string) and the `_SORT` priority.
* Side effects (logger calls, chooser registrations, `enabled` / `disabled` /
  `teleopPeriodic` hook invocations) are recorded as an ordered `Event` trace.
* Python exceptions (`assert`, `IndexError`) are modelled with `Except`.
* `sorted(interfaces, key=lambda x: x._SORT, reverse=True)` is Python's stable
  sort in descending key order. A stable sort is extensionally unique (the
  output is determined by sortedness plus preservation of the relative order
  of equal keys), so it is modelled by a structurally recursive stable
  insertion sort, `sortInterfaces`; the theorems `sortInterfaces_perm`,
  `sortInterfaces_sorted` and `sortInterfaces_filter_key` establish exactly
  that characterization.
-/

/-- The `_DISPLAY_NAME` attribute of a control interface: absent
(`missing`), present but not a Python `str` (`nonString`), or a string. -/
inductive DisplayAttr where
  | missing : DisplayAttr
  | nonString : DisplayAttr
  | str : String → DisplayAttr
deriving DecidableEq, Repr

/-- A `ControlInterface` instance. `id` models Python object identity:
distinct objects are given distinct ids. -/
structure ControlInterface where
  id : Nat
  _DISPLAY_NAME : DisplayAttr
  _SORT : Int
deriving DecidableEq, Repr

/-- Observable side effects of the manager, in program order. -/
inductive Event where
  | logErrorNoDisplayName : Nat → Event
  | logErrorNonStringDisplayName : Nat → Event
  | logErrorInvalidControlMode : Int → Event
  | addDefault : String → Nat → Event
  | addObject : String → Nat → Event
  | disabled : Nat → Event
  | enabled : Nat → Event
  | teleopPeriodic : Nat → Event
deriving DecidableEq, Repr

/-- Python exceptions that can escape the modelled code. -/
inductive PyError where
  | assertionError : PyError
  | indexError : PyError
deriving DecidableEq, Repr

/-- The mutable state of a `ControlManager`: the `control_mode` pointer and
the `control_interfaces` registry. The chooser widgets are external. -/
structure ControlManager where
  control_mode : Option ControlInterface
  control_interfaces : List ControlInterface
deriving DecidableEq, Repr

/-- Insert `a` into `l` before the first element whose `_SORT` key is `≤`
`a`'s key. When `l` is descending this keeps it descending, and `a` — which
comes earlier in the input than everything in `l` — lands before every
equal-key element of `l` (stability). -/
def insertDesc (a : ControlInterface) : List ControlInterface → List ControlInterface
  | [] => [a]
  | b :: l => if b._SORT ≤ a._SORT then a :: b :: l else b :: insertDesc a l

/-- `sorted(interfaces, key=lambda x: x._SORT, reverse=True)`:
the stable sort with descending `_SORT` keys. -/
def sortInterfaces (l : List ControlInterface) : List ControlInterface :=
  l.foldr insertDesc []

/-- The validation/registration loop of `ControlManager.__init__`
(`for i, mode in enumerate(interfaces): ...`), starting at index `i`.
Returns the `control_interfaces` registry built and the event trace. -/
def buildRegistry : Nat → List ControlInterface → List ControlInterface × List Event
  | _, [] => ([], [])
  | i, mode :: rest =>
    let p := buildRegistry (i + 1) rest
    match mode._DISPLAY_NAME with
    | DisplayAttr.missing =>
      (p.1, Event.logErrorNoDisplayName mode.id :: p.2)
    | DisplayAttr.nonString =>
      (p.1, Event.logErrorNonStringDisplayName mode.id :: p.2)
    | DisplayAttr.str s =>
      (mode :: p.1,
        (if i = 0 then Event.addDefault s i else Event.addObject s i) :: p.2)

/-- `ControlManager.__init__`: asserts a non-empty argument list, sorts by
`_SORT` descending, then runs the validation/registration loop. -/
def ControlManager.init (interfaces : List ControlInterface) :
    Except PyError (ControlManager × List Event) :=
  if interfaces.length = 0 then
    Except.error PyError.assertionError
  else
    let p := buildRegistry 0 (sortInterfaces interfaces)
    Except.ok ({ control_mode := none, control_interfaces := p.1 }, p.2)

/-- Python list indexing `xs[i]`: non-negative indices from the front,
negative indices from the back, `none` when out of range (`IndexError`). -/
def pyGetElem (xs : List ControlInterface) (i : Int) : Option ControlInterface :=
  if 0 ≤ i then
    xs.get? i.toNat
  else if 0 ≤ (xs.length : Int) + i then
    xs.get? ((xs.length : Int) + i).toNat
  else
    none

/-- `ControlManager.control_mode_changed`. The argument is the value the
chooser reports via `getSelected()` (`none` models Python `None`). -/
def control_mode_changed (st : ControlManager) (selected : Option Int) :
    Except PyError (ControlManager × List Event) :=
  match selected with
  | none => Except.ok (st, [])
  | some v =>
    if (st.control_interfaces.length : Int) ≤ v then
      Except.ok (st, [Event.logErrorInvalidControlMode v])
    else
      match pyGetElem st.control_interfaces v with
      | none => Except.error PyError.indexError
      | some m =>
        if st.control_mode = some m then
          Except.ok (st, [])
        else
          Except.ok ({ st with control_mode := some m },
            (match st.control_mode with
              | some a => [Event.disabled a.id]
              | none => []) ++ [Event.enabled m.id])

/-- `ControlManager.teleopPeriodic`: forwards to the active mode, if any. -/
def ControlManager.teleopPeriodic (st : ControlManager) : List Event :=
  match st.control_mode with
  | none => []
  | some m => [Event.teleopPeriodic m.id]

/-- One external stimulus: a chooser callback or a periodic tick. -/
inductive Op where
  | select : Option Int → Op
  | tick : Op
deriving DecidableEq, Repr

/-- Run a sequence of stimuli against a manager, threading state and
concatenating event traces; stops at the first escaping exception. -/
def runOps : ControlManager → List Op → Except PyError (ControlManager × List Event)
  | st, [] => Except.ok (st, [])
  | st, op :: rest =>
    let r := match op with
      | Op.select v => control_mode_changed st v
      | Op.tick => Except.ok (st, st.teleopPeriodic)
    match r with
    | Except.error e => Except.error e
    | Except.ok (st1, ev) =>
      match runOps st1 rest with
      | Except.error e => Except.error e
      | Except.ok (st2, ev2) => Except.ok (st2, ev ++ ev2)

/-- Does the `_DISPLAY_NAME` attribute pass the constructor's validation?
The code accepts any Python `str`, including the empty string. -/
def DisplayAttr.isStr : DisplayAttr → Bool
  | DisplayAttr.str _ => true
  | _ => false

/-- The validation-failure log entry the constructor emits for a mode,
if any. -/
def validationLog (m : ControlInterface) : Option Event :=
  match m._DISPLAY_NAME with
  | DisplayAttr.missing => some (Event.logErrorNoDisplayName m.id)
  | DisplayAttr.nonString => some (Event.logErrorNonStringDisplayName m.id)
  | DisplayAttr.str _ => none

/-- Is an event one of the two validation-failure log entries? -/
def Event.isValidationLog : Event → Bool
  | Event.logErrorNoDisplayName _ => true
  | Event.logErrorNonStringDisplayName _ => true
  | _ => false

/-- Is an event a chooser registration (`addDefault` or `addObject`)? -/
def Event.isRegistration : Event → Bool
  | Event.addDefault _ _ => true
  | Event.addObject _ _ => true
  | _ => false

/-- The chooser registration the constructor emits for the mode at position
`i` of the sorted list, if the mode passes validation. -/
def regEvent : Nat × ControlInterface → Option Event
  | (i, m) =>
    match m._DISPLAY_NAME with
    | DisplayAttr.str s =>
      some (if i = 0 then Event.addDefault s i else Event.addObject s i)
    | _ => none

/-- Modelled from the spec: a mode has "a non-empty `displayName`". The
spec's validation predicate, to compare with the code's `DisplayAttr.isStr`
(which also accepts the empty string). -/
def specNonEmptyDisplayName (m : ControlInterface) : Bool :=
  match m._DISPLAY_NAME with
  | DisplayAttr.str s => decide (s ≠ "")
  | _ => false

/-- The invariant of claim C9: the active pointer is absent or points at a
registry member. -/
def ActiveInv (st : ControlManager) : Prop :=
  st.control_mode = none ∨
    ∃ m, st.control_mode = some m ∧ m ∈ st.control_interfaces

/-- What any returning call sequence does to the state: the registry is
untouched, and the active pointer is untouched or set to a registry member. -/
def StepFacts (st st2 : ControlManager) : Prop :=
  st2.control_interfaces = st.control_interfaces ∧
    (st2.control_mode = st.control_mode ∨
      ∃ m, m ∈ st.control_interfaces ∧ st2.control_mode = some m)

/-! ### Properties of the stable sort -/

/-- Inserting permutes: `insertDesc a l` has exactly `a` and `l`'s elements. -/
theorem insertDesc_perm (a : ControlInterface) (l : List ControlInterface) :
    List.Perm (insertDesc a l) (a :: l) := by
  induction l with
  | nil => exact List.Perm.refl _
  | cons b l ih =>
    by_cases h : b._SORT ≤ a._SORT
    · simp only [insertDesc, if_pos h]
      exact List.Perm.refl _
    · simp only [insertDesc, if_neg h]
      exact (ih.cons b).trans (List.Perm.swap a b l)

/-- The sort permutes its input. -/
theorem sortInterfaces_perm (l : List ControlInterface) :
    List.Perm (sortInterfaces l) l := by
  induction l with
  | nil => exact List.Perm.refl _
  | cons a l ih =>
    exact (insertDesc_perm a (sortInterfaces l)).trans (ih.cons a)

/-- Inserting into a descending list keeps it descending. -/
theorem insertDesc_sorted (a : ControlInterface) (l : List ControlInterface)
    (h : l.Pairwise (fun x y => y._SORT ≤ x._SORT)) :
    (insertDesc a l).Pairwise (fun x y => y._SORT ≤ x._SORT) := by
  induction l with
  | nil => simp [insertDesc]
  | cons b l ih =>
    rcases List.pairwise_cons.1 h with ⟨hb, hl⟩
    by_cases hba : b._SORT ≤ a._SORT
    · simp only [insertDesc, if_pos hba]
      refine List.pairwise_cons.2 ⟨?_, h⟩
      intro x hx
      rcases List.mem_cons.1 hx with rfl | hx
      · exact hba
      · exact le_trans (hb x hx) hba
    · simp only [insertDesc, if_neg hba]
      refine List.pairwise_cons.2 ⟨?_, ih hl⟩
      intro x hx
      rcases List.mem_cons.1 ((insertDesc_perm a l).mem_iff.1 hx) with rfl | hx
      · exact (not_le.mp hba).le
      · exact hb x hx

/-- The sort's output is descending in `_SORT`. -/
theorem sortInterfaces_sorted (l : List ControlInterface) :
    (sortInterfaces l).Pairwise (fun x y => y._SORT ≤ x._SORT) := by
  induction l with
  | nil => simp [sortInterfaces]
  | cons a l ih => exact insertDesc_sorted a (sortInterfaces l) ih

/-- The elements with any fixed key keep their relative order under
insertion: stability of `insertDesc`. -/
theorem insertDesc_filter_key (k : Int) (a : ControlInterface)
    (l : List ControlInterface) :
    (insertDesc a l).filter (fun m => decide (m._SORT = k)) =
      if a._SORT = k then
        a :: l.filter (fun m => decide (m._SORT = k))
      else
        l.filter (fun m => decide (m._SORT = k)) := by
  induction l with
  | nil => by_cases h : a._SORT = k <;> simp [insertDesc, h]
  | cons b l ih =>
    by_cases hba : b._SORT ≤ a._SORT
    · simp only [insertDesc, if_pos hba]
      by_cases hak : a._SORT = k <;> simp [List.filter_cons, hak]
    · simp only [insertDesc, if_neg hba]
      rw [List.filter_cons, ih]
      by_cases hbk : b._SORT = k
      · have hak : ¬ a._SORT = k := by
          have := not_le.mp hba
          omega
        simp [List.filter_cons, hbk, hak]
      · by_cases hak : a._SORT = k <;> simp [List.filter_cons, hbk, hak]

/-- Stability of the sort: for every key, the sublist of elements carrying
that key is unchanged. -/
theorem sortInterfaces_filter_key (k : Int) (l : List ControlInterface) :
    (sortInterfaces l).filter (fun m => decide (m._SORT = k)) =
      l.filter (fun m => decide (m._SORT = k)) := by
  induction l with
  | nil => rfl
  | cons a l ih =>
    show (insertDesc a (sortInterfaces l)).filter _ = _
    rw [insertDesc_filter_key]
    by_cases hak : a._SORT = k <;> simp [List.filter_cons, hak, ih]

/-! ### Properties of the constructor loop -/

/-- The registry the loop builds is exactly the string-named modes, in
iteration order. -/
theorem buildRegistry_fst (i : Nat) (l : List ControlInterface) :
    (buildRegistry i l).1 = l.filter (fun m => m._DISPLAY_NAME.isStr) := by
  induction l generalizing i with
  | nil => rfl
  | cons m l ih =>
    cases h : m._DISPLAY_NAME <;>
      simp [buildRegistry, h, List.filter_cons, DisplayAttr.isStr, ih]

/-- The validation-failure log entries the loop emits are exactly one per
invalid mode, in iteration order. -/
theorem buildRegistry_validationLogs (i : Nat) (l : List ControlInterface) :
    (buildRegistry i l).2.filter Event.isValidationLog = l.filterMap validationLog := by
  induction l generalizing i with
  | nil => rfl
  | cons m l ih =>
    cases h : m._DISPLAY_NAME with
    | str s =>
      by_cases hi : i = 0 <;>
        simp [buildRegistry, h, hi, List.filter_cons, List.filterMap_cons,
          validationLog, Event.isValidationLog, ih]
    | missing =>
      simp [buildRegistry, h, List.filter_cons, List.filterMap_cons,
        validationLog, Event.isValidationLog, ih]
    | nonString =>
      simp [buildRegistry, h, List.filter_cons, List.filterMap_cons,
        validationLog, Event.isValidationLog, ih]

/-- The chooser registrations the loop emits are exactly one per valid mode,
in iteration order, carrying the mode's index in the full enumerated list. -/
theorem buildRegistry_registrations (i : Nat) (l : List ControlInterface) :
    (buildRegistry i l).2.filter Event.isRegistration =
      (List.enumFrom i l).filterMap regEvent := by
  induction l generalizing i with
  | nil => rfl
  | cons m l ih =>
    cases h : m._DISPLAY_NAME with
    | missing =>
      simp [buildRegistry, h, List.filter_cons, List.enumFrom, List.filterMap_cons,
        regEvent, Event.isRegistration, ih]
    | nonString =>
      simp [buildRegistry, h, List.filter_cons, List.enumFrom, List.filterMap_cons,
        regEvent, Event.isRegistration, ih]
    | str s =>
      by_cases hi : i = 0 <;>
        simp [buildRegistry, h, hi, List.filter_cons, List.enumFrom,
          List.filterMap_cons, regEvent, Event.isRegistration, ih]

/-- An `addDefault` registration can only be emitted for index `0`, i.e. by
a loop started at `0` whose first mode is valid with the flagged name. -/
theorem buildRegistry_addDefault (i : Nat) (l : List ControlInterface)
    (s : String) (j : Nat)
    (h : Event.addDefault s j ∈ (buildRegistry i l).2) :
    i = 0 ∧ j = 0 ∧
      ∃ m l2, l = m :: l2 ∧ m._DISPLAY_NAME = DisplayAttr.str s := by
  induction l generalizing i with
  | nil => simp [buildRegistry] at h
  | cons m l ih =>
    cases hd : m._DISPLAY_NAME with
    | missing =>
      simp only [buildRegistry, hd, List.mem_cons] at h
      rcases h with h | h
      · cases h
      · rcases ih (i + 1) h with ⟨h1, _⟩
        omega
    | nonString =>
      simp only [buildRegistry, hd, List.mem_cons] at h
      rcases h with h | h
      · cases h
      · rcases ih (i + 1) h with ⟨h1, _⟩
        omega
    | str t =>
      simp only [buildRegistry, hd, List.mem_cons] at h
      rcases h with h | h
      · by_cases hi : i = 0
        · rw [if_pos hi] at h
          cases h
          exact ⟨hi, hi ▸ rfl, m, l, rfl, hd⟩
        · rw [if_neg hi] at h
          cases h
      · rcases ih (i + 1) h with ⟨h1, _⟩
        omega

/-! ### Properties of lookup and selection -/

/-- A successful Python lookup returns a list member. -/
theorem pyGetElem_mem {xs : List ControlInterface} {i : Int}
    {m : ControlInterface} (h : pyGetElem xs i = some m) : m ∈ xs := by
  unfold pyGetElem at h
  split at h
  · exact List.get?_mem h
  · split at h
    · exact List.get?_mem h
    · cases h

/-- A successful Python lookup means the guard `len(...) <= i` is false. -/
theorem pyGetElem_lt {xs : List ControlInterface} {i : Int}
    {m : ControlInterface} (h : pyGetElem xs i = some m) :
    ¬ ((xs.length : Int) ≤ i) := by
  intro hle
  unfold pyGetElem at h
  split at h
  · rcases List.get?_eq_some.1 h with ⟨hlt, _⟩
    rename_i h0
    omega
  · rename_i h0
    omega

/-- A lookup at a negative index in range hits the element at `len + i`. -/
theorem pyGetElem_neg {xs : List ControlInterface} {i : Int}
    (hneg : i < 0) (hin : 0 ≤ (xs.length : Int) + i) :
    ∃ m, pyGetElem xs i = some m ∧
      xs.get? ((xs.length : Int) + i).toNat = some m := by
  have hnn : ¬ (0 ≤ i) := by omega
  have hlt : ((xs.length : Int) + i).toNat < xs.length := by omega
  refine ⟨xs.get ⟨((xs.length : Int) + i).toNat, hlt⟩, ?_, List.get?_eq_get hlt⟩
  unfold pyGetElem
  rw [if_neg hnn, if_pos hin]
  exact List.get?_eq_get hlt

/-- A lookup at an index below `-len` raises `IndexError` (returns `none`). -/
theorem pyGetElem_oob {xs : List ControlInterface} {i : Int}
    (hout : (xs.length : Int) + i < 0) : pyGetElem xs i = none := by
  have hnn : ¬ (0 ≤ i) := by omega
  have hni : ¬ (0 ≤ (xs.length : Int) + i) := by omega
  unfold pyGetElem
  rw [if_neg hnn, if_neg hni]

/-- When the selected value resolves to a registry member `b`,
`control_mode_changed` reduces to the reselection test. -/
theorem control_mode_changed_resolved (st : ControlManager) (v : Int)
    (b : ControlInterface) (hb : pyGetElem st.control_interfaces v = some b) :
    control_mode_changed st (some v) =
      if st.control_mode = some b then
        Except.ok (st, [])
      else
        Except.ok ({ st with control_mode := some b },
          (match st.control_mode with
            | some a => [Event.disabled a.id]
            | none => []) ++ [Event.enabled b.id]) := by
  simp only [control_mode_changed]
  rw [if_neg (pyGetElem_lt hb), hb]

/-- The state facts of one `control_mode_changed` call that returns: the
registry is untouched and the active pointer is untouched or set to a
registry member. -/
theorem control_mode_changed_state (st : ControlManager) (sel : Option Int)
    (st2 : ControlManager) (ev : List Event)
    (h : control_mode_changed st sel = Except.ok (st2, ev)) :
    st2.control_interfaces = st.control_interfaces ∧
      (st2.control_mode = st.control_mode ∨
        ∃ m, m ∈ st.control_interfaces ∧ st2.control_mode = some m) := by
  cases sel with
  | none =>
    simp only [control_mode_changed, Except.ok.injEq, Prod.mk.injEq] at h
    rw [← h.1]
    exact ⟨rfl, Or.inl rfl⟩
  | some v =>
    simp only [control_mode_changed] at h
    split at h
    · simp only [Except.ok.injEq, Prod.mk.injEq] at h
      rw [← h.1]
      exact ⟨rfl, Or.inl rfl⟩
    · split at h
      · cases h
      · rename_i m heq
        split at h
        · first
          | exact ⟨rfl, Or.inl rfl⟩
          | (simp only [Except.ok.injEq, Prod.mk.injEq] at h
             rw [← h.1]
             exact ⟨rfl, Or.inl rfl⟩)
        · first
          | exact ⟨rfl, Or.inr ⟨m, pyGetElem_mem heq, rfl⟩⟩
          | (simp only [Except.ok.injEq, Prod.mk.injEq] at h
             rw [← h.1]
             exact ⟨rfl, Or.inr ⟨m, pyGetElem_mem heq, rfl⟩⟩)

/-- `StepFacts` composes. -/
theorem stepFacts_trans {s1 s2 s3 : ControlManager}
    (h12 : StepFacts s1 s2) (h23 : StepFacts s2 s3) : StepFacts s1 s3 := by
  rcases h12 with ⟨hci12, hcm12⟩
  rcases h23 with ⟨hci23, hcm23⟩
  refine ⟨hci23.trans hci12, ?_⟩
  rcases hcm23 with hcm23 | ⟨m, hm, hcm23⟩
  · rcases hcm12 with hcm12 | ⟨m, hm, hcm12⟩
    · exact Or.inl (hcm23.trans hcm12)
    · exact Or.inr ⟨m, hm, hcm23.trans hcm12⟩
  · exact Or.inr ⟨m, hci12 ▸ hm, hcm23⟩

/-- A single `control_mode_changed` call satisfies `StepFacts`. -/
theorem control_mode_changed_stepFacts (st : ControlManager) (sel : Option Int)
    (st2 : ControlManager) (ev : List Event)
    (h : control_mode_changed st sel = Except.ok (st2, ev)) : StepFacts st st2 :=
  control_mode_changed_state st sel st2 ev h

/-- Any returning call sequence satisfies `StepFacts`. -/
theorem runOps_stepFacts (ops : List Op) (st st2 : ControlManager)
    (ev : List Event) (h : runOps st ops = Except.ok (st2, ev)) :
    StepFacts st st2 := by
  induction ops generalizing st st2 ev with
  | nil =>
    simp only [runOps, Except.ok.injEq, Prod.mk.injEq] at h
    rw [← h.1]
    exact ⟨rfl, Or.inl rfl⟩
  | cons op rest ih =>
    cases op with
    | tick =>
      simp only [runOps, ControlManager.teleopPeriodic] at h
      split at h
      · cases h
      · rename_i st3 ev2 heq
        first
        | exact ih st st3 ev2 heq
        | (simp only [Except.ok.injEq, Prod.mk.injEq] at h
           rw [← h.1]
           exact ih st st3 ev2 heq)
    | select v =>
      simp only [runOps] at h
      split at h
      · cases h
      · rename_i st1 ev1 heq1
        split at h
        · cases h
        · rename_i st3 ev2 heq2
          have hf1 := control_mode_changed_stepFacts st v st1 ev1 heq1
          have hf2 := ih st1 st3 ev2 heq2
          first
          | exact stepFacts_trans hf1 hf2
          | (simp only [Except.ok.injEq, Prod.mk.injEq] at h
             rw [← h.1]
             exact stepFacts_trans hf1 hf2)

/-! ### Claims -/

/-- Claim C1, counterexample: constructing with one mode that fails
display-name validation does not fail — it succeeds and leaves an empty
registry, contradicting "fails with `ConfigurationError` if validation
excludes every mode". -/
theorem c1_counterexample :
    ControlManager.init [⟨0, DisplayAttr.missing, 0⟩] =
      Except.ok (⟨none, []⟩, [Event.logErrorNoDisplayName 0]) := by
  rfl

/-- Claim C1, amended: constructing with a non-empty collection of modes of
which every mode fails display-name validation succeeds, with an empty
registry; only a zero-length argument list fails (the `assert`). -/
theorem c1_all_invalid_succeeds (l : List ControlInterface) (hne : l ≠ [])
    (hall : ∀ m ∈ l, m._DISPLAY_NAME.isStr = false) :
    ∃ ev, ControlManager.init l = Except.ok (⟨none, []⟩, ev) := by
  have hlen : ¬ (l.length = 0) := by simpa using hne
  have hreg : (buildRegistry 0 (sortInterfaces l)).1 = [] := by
    rw [buildRegistry_fst, List.filter_eq_nil_iff]
    intro m hm
    simp [hall m ((sortInterfaces_perm l).mem_iff.1 hm)]
  refine ⟨(buildRegistry 0 (sortInterfaces l)).2, ?_⟩
  simp only [ControlManager.init, if_neg hlen, hreg]

/-- Witness for C1's amended theorem at a concrete all-invalid input. -/
theorem c1_all_invalid_succeeds_witness :
    ([⟨0, DisplayAttr.missing, 0⟩] : List ControlInterface) ≠ [] ∧
      ∃ ev, ControlManager.init [⟨0, DisplayAttr.missing, 0⟩] =
        Except.ok (⟨none, []⟩, ev) :=
  ⟨by decide,
    c1_all_invalid_succeeds [⟨0, DisplayAttr.missing, 0⟩] (by decide)
      (by decide)⟩

/-- Claim C2, counterexample: the selection id `-2` corresponds to no
registered mode of a one-mode registry, yet `control_mode_changed` raises
`IndexError` to the caller and logs nothing, contradicting "reports exactly
one error through the logging channel ... and does not raise an exception".
-/
theorem c2_counterexample :
    control_mode_changed ⟨none, [⟨0, DisplayAttr.str "A", 0⟩]⟩ (some (-2)) =
      Except.error PyError.indexError := by
  rfl

/-- Claim C2, amended: only for a selection id at least the registry length
does `control_mode_changed` log exactly one error, leave all state
unchanged and return normally (negative ids instead index from the back or
raise `IndexError`; see C10). -/
theorem c2_overflow_logs_one_error (st : ControlManager) (v : Int)
    (hv : (st.control_interfaces.length : Int) ≤ v) :
    control_mode_changed st (some v) =
      Except.ok (st, [Event.logErrorInvalidControlMode v]) := by
  simp only [control_mode_changed, if_pos hv]

/-- Witness for C2's amended theorem at a concrete too-large id. -/
theorem c2_overflow_logs_one_error_witness :
    (((⟨none, [⟨0, DisplayAttr.str "A", 0⟩]⟩ :
          ControlManager).control_interfaces.length : Int) ≤ 3) ∧
      control_mode_changed ⟨none, [⟨0, DisplayAttr.str "A", 0⟩]⟩ (some 3) =
        Except.ok (⟨none, [⟨0, DisplayAttr.str "A", 0⟩]⟩,
          [Event.logErrorInvalidControlMode 3]) :=
  ⟨by decide,
    c2_overflow_logs_one_error ⟨none, [⟨0, DisplayAttr.str "A", 0⟩]⟩ 3
      (by decide)⟩

/-- Claim C3, counterexample: a mode whose display name is the empty string
survives validation and is kept in the registry (and even registered as the
default), contradicting "the resulting registry contains exactly the modes
with a non-empty display name". -/
theorem c3_counterexample :
    ControlManager.init [⟨0, DisplayAttr.str "", 0⟩] =
        Except.ok (⟨none, [⟨0, DisplayAttr.str "", 0⟩]⟩,
          [Event.addDefault "" 0]) ∧
      specNonEmptyDisplayName ⟨0, DisplayAttr.str "", 0⟩ = false :=
  ⟨rfl, rfl⟩

/-- Claim C3, amended: during construction every mode whose display name is
missing or not a string is excluded from the registry, with an error (not a
warning) logged per excluded mode, and the registry is exactly the modes
carrying a string display name — the empty string included — in priority
order. -/
theorem c3_registry_and_logs (l : List ControlInterface) (st : ControlManager)
    (ev : List Event) (h : ControlManager.init l = Except.ok (st, ev)) :
    st.control_interfaces =
        (sortInterfaces l).filter (fun m => m._DISPLAY_NAME.isStr) ∧
      ev.filter Event.isValidationLog =
        (sortInterfaces l).filterMap validationLog := by
  simp only [ControlManager.init] at h
  split at h
  · cases h
  · first
    | exact ⟨buildRegistry_fst 0 (sortInterfaces l),
        buildRegistry_validationLogs 0 (sortInterfaces l)⟩
    | (simp only [Except.ok.injEq, Prod.mk.injEq] at h
       rw [← h.1, ← h.2]
       exact ⟨buildRegistry_fst 0 (sortInterfaces l),
         buildRegistry_validationLogs 0 (sortInterfaces l)⟩)

/-- Witness for C3's amended theorem at the spec's own example
`[Valid "A", Invalid, Valid "B"]` (equal priorities): the registry is
exactly A then B and one validation log is emitted. -/
theorem c3_registry_and_logs_witness :
    ControlManager.init
        [⟨0, DisplayAttr.str "A", 0⟩, ⟨1, DisplayAttr.missing, 0⟩,
         ⟨2, DisplayAttr.str "B", 0⟩] =
      Except.ok
        (⟨none, [⟨0, DisplayAttr.str "A", 0⟩, ⟨2, DisplayAttr.str "B", 0⟩]⟩,
          [Event.addDefault "A" 0, Event.logErrorNoDisplayName 1,
            Event.addObject "B" 2]) ∧
      ((⟨none, [⟨0, DisplayAttr.str "A", 0⟩, ⟨2, DisplayAttr.str "B", 0⟩]⟩ :
          ControlManager).control_interfaces =
        (sortInterfaces
          [⟨0, DisplayAttr.str "A", 0⟩, ⟨1, DisplayAttr.missing, 0⟩,
           ⟨2, DisplayAttr.str "B", 0⟩]).filter
          (fun m => m._DISPLAY_NAME.isStr)) :=
  ⟨by rfl,
    (c3_registry_and_logs
      [⟨0, DisplayAttr.str "A", 0⟩, ⟨1, DisplayAttr.missing, 0⟩,
       ⟨2, DisplayAttr.str "B", 0⟩] _ _ (by rfl)).1⟩

/-- Claim C4, counterexample: when the highest-priority mode fails
validation, the surviving first mode A is not flagged as the default — no
`addDefault` registration happens at all, and A is registered as a plain
option under the full sorted-list index `1`, contradicting "the first
surviving (highest-priority) mode — and only that one — is flagged as the
default choice". -/
theorem c4_counterexample :
    ControlManager.init
        [⟨0, DisplayAttr.missing, 1⟩, ⟨1, DisplayAttr.str "A", 0⟩] =
      Except.ok (⟨none, [⟨1, DisplayAttr.str "A", 0⟩]⟩,
        [Event.logErrorNoDisplayName 0, Event.addObject "A" 1]) := by
  rfl

/-- Claim C4, amended: each surviving mode is registered in sorted order
under its index in the full sorted list (invalid modes included in the
numbering), and `addDefault` is emitted only for index `0`, i.e. only when
the very first mode of the sorted list itself survives validation; if it
does not, no mode is flagged as default. -/
theorem c4_registrations (l : List ControlInterface) (st : ControlManager)
    (ev : List Event) (h : ControlManager.init l = Except.ok (st, ev)) :
    ev.filter Event.isRegistration =
        (List.enumFrom 0 (sortInterfaces l)).filterMap regEvent ∧
      ∀ s j, Event.addDefault s j ∈ ev →
        j = 0 ∧ ∃ m l2, sortInterfaces l = m :: l2 ∧
          m._DISPLAY_NAME = DisplayAttr.str s := by
  simp only [ControlManager.init] at h
  split at h
  · cases h
  · have hev : ev = (buildRegistry 0 (sortInterfaces l)).2 := by
      first
      | rfl
      | (simp only [Except.ok.injEq, Prod.mk.injEq] at h
         exact h.2.symm)
    rw [hev]
    refine ⟨buildRegistry_registrations 0 (sortInterfaces l), ?_⟩
    intro s j hmem
    rcases buildRegistry_addDefault 0 (sortInterfaces l) s j hmem with
      ⟨_, hj, hrest⟩
    exact ⟨hj, hrest⟩

/-- Witness for C4's amended theorem at a concrete two-mode valid input. -/
theorem c4_registrations_witness :
    ControlManager.init
        [⟨0, DisplayAttr.str "A", 1⟩, ⟨1, DisplayAttr.str "B", 0⟩] =
      Except.ok
        (⟨none, [⟨0, DisplayAttr.str "A", 1⟩, ⟨1, DisplayAttr.str "B", 0⟩]⟩,
          [Event.addDefault "A" 0, Event.addObject "B" 1]) ∧
      ([Event.addDefault "A" 0, Event.addObject "B" 1].filter
          Event.isRegistration =
        (List.enumFrom 0 (sortInterfaces
          [⟨0, DisplayAttr.str "A", 1⟩,
           ⟨1, DisplayAttr.str "B", 0⟩])).filterMap regEvent) :=
  ⟨by rfl,
    (c4_registrations
      [⟨0, DisplayAttr.str "A", 1⟩, ⟨1, DisplayAttr.str "B", 0⟩] _ _
      (by rfl)).1⟩

/-- Claim C5 (confirmed): when the selected id resolves to registered mode
`b` different from the active mode `a`, the call emits exactly
`a.disabled()` then `b.enabled()` in that order, with the active pointer
updated to `b` in between, and a subsequent `teleopPeriodic` forwards only
to `b`; when no mode was active, only `b.enabled()` runs. -/
theorem c5_transition (st : ControlManager) (v : Int) (b : ControlInterface)
    (hb : pyGetElem st.control_interfaces v = some b) :
    (∀ a, st.control_mode = some a → a ≠ b →
        control_mode_changed st (some v) =
            Except.ok ({ st with control_mode := some b },
              [Event.disabled a.id, Event.enabled b.id]) ∧
          ControlManager.teleopPeriodic { st with control_mode := some b } =
            [Event.teleopPeriodic b.id]) ∧
      (st.control_mode = none →
        control_mode_changed st (some v) =
            Except.ok ({ st with control_mode := some b },
              [Event.enabled b.id]) ∧
          ControlManager.teleopPeriodic { st with control_mode := some b } =
            [Event.teleopPeriodic b.id]) := by
  constructor
  · intro a ha hne
    have hne2 : ¬ st.control_mode = some b := by
      rw [ha]
      intro hc
      exact hne (Option.some.inj hc)
    rw [control_mode_changed_resolved st v b hb, if_neg hne2, ha]
    exact ⟨rfl, rfl⟩
  · intro ha
    have hne2 : ¬ st.control_mode = some b := by simp [ha]
    rw [control_mode_changed_resolved st v b hb, if_neg hne2, ha]
    exact ⟨rfl, rfl⟩

/-- Witness for C5 at a concrete two-mode manager with A active and B
selected. -/
theorem c5_transition_witness :
    control_mode_changed
        ⟨some ⟨0, DisplayAttr.str "A", 0⟩,
          [⟨0, DisplayAttr.str "A", 0⟩, ⟨1, DisplayAttr.str "B", 0⟩]⟩
        (some 1) =
      Except.ok
        (⟨some ⟨1, DisplayAttr.str "B", 0⟩,
          [⟨0, DisplayAttr.str "A", 0⟩, ⟨1, DisplayAttr.str "B", 0⟩]⟩,
          [Event.disabled 0, Event.enabled 1]) ∧
      ControlManager.teleopPeriodic
        ⟨some ⟨1, DisplayAttr.str "B", 0⟩,
          [⟨0, DisplayAttr.str "A", 0⟩, ⟨1, DisplayAttr.str "B", 0⟩]⟩ =
        [Event.teleopPeriodic 1] :=
  (c5_transition
    ⟨some ⟨0, DisplayAttr.str "A", 0⟩,
      [⟨0, DisplayAttr.str "A", 0⟩, ⟨1, DisplayAttr.str "B", 0⟩]⟩
    1 ⟨1, DisplayAttr.str "B", 0⟩ (by rfl)).1
    ⟨0, DisplayAttr.str "A", 0⟩ rfl (by decide)

/-- Claim C6 (confirmed): when the selected id resolves to the mode that is
already active, any number of repeated notifications is a no-op — the state
is unchanged and no `disabled`/`enabled` hook (indeed no event at all) is
emitted. -/
theorem c6_reselect_noop (st : ControlManager) (v : Int)
    (a : ControlInterface) (k : Nat) (ha : st.control_mode = some a)
    (hb : pyGetElem st.control_interfaces v = some a) :
    runOps st (List.replicate k (Op.select (some v))) = Except.ok (st, []) := by
  have hstep : control_mode_changed st (some v) = Except.ok (st, []) := by
    rw [control_mode_changed_resolved st v a hb, if_pos ha]
  induction k with
  | zero => rfl
  | succ n ih =>
    rw [List.replicate_succ]
    simp only [runOps, hstep, ih]
    rfl

/-- Witness for C6: three repeated reselections of the active mode. -/
theorem c6_reselect_noop_witness :
    runOps ⟨some ⟨0, DisplayAttr.str "A", 0⟩, [⟨0, DisplayAttr.str "A", 0⟩]⟩
        (List.replicate 3 (Op.select (some 0))) =
      Except.ok
        (⟨some ⟨0, DisplayAttr.str "A", 0⟩, [⟨0, DisplayAttr.str "A", 0⟩]⟩,
          []) :=
  c6_reselect_noop
    ⟨some ⟨0, DisplayAttr.str "A", 0⟩, [⟨0, DisplayAttr.str "A", 0⟩]⟩
    0 ⟨0, DisplayAttr.str "A", 0⟩ 3 rfl (by rfl)

/-- Claim C7 (confirmed): when every input mode is valid, the registry of a
successful construction is exactly `sortInterfaces` of the input, which is
a permutation of the input, descending in `_SORT`, and stable (for every
priority, the elements carrying it keep their input order). -/
theorem c7_registry_sorted (l : List ControlInterface) (st : ControlManager)
    (ev : List Event) (h : ControlManager.init l = Except.ok (st, ev))
    (hall : ∀ m ∈ l, m._DISPLAY_NAME.isStr = true) :
    st.control_interfaces = sortInterfaces l ∧
      List.Perm (sortInterfaces l) l ∧
      (sortInterfaces l).Pairwise (fun x y => y._SORT ≤ x._SORT) ∧
      ∀ k : Int, (sortInterfaces l).filter (fun m => decide (m._SORT = k)) =
        l.filter (fun m => decide (m._SORT = k)) := by
  have hfil : (sortInterfaces l).filter (fun m => m._DISPLAY_NAME.isStr) =
      sortInterfaces l :=
    List.filter_eq_self.mpr
      (fun m hm => hall m ((sortInterfaces_perm l).mem_iff.1 hm))
  refine ⟨?_, sortInterfaces_perm l, sortInterfaces_sorted l,
    fun k => sortInterfaces_filter_key k l⟩
  simp only [ControlManager.init] at h
  split at h
  · cases h
  · first
    | exact (buildRegistry_fst 0 (sortInterfaces l)).trans hfil
    | (simp only [Except.ok.injEq, Prod.mk.injEq] at h
       rw [← h.1]
       exact (buildRegistry_fst 0 (sortInterfaces l)).trans hfil)

/-- Witness for C7 at the spec's P2 example: priorities `[3, 1, 3, 0]` in
input order yield registry order `[mode0, mode2, mode1, mode3]`. -/
theorem c7_registry_sorted_witness :
    ControlManager.init
        [⟨0, DisplayAttr.str "a", 3⟩, ⟨1, DisplayAttr.str "b", 1⟩,
         ⟨2, DisplayAttr.str "c", 3⟩, ⟨3, DisplayAttr.str "d", 0⟩] =
      Except.ok
        (⟨none,
          [⟨0, DisplayAttr.str "a", 3⟩, ⟨2, DisplayAttr.str "c", 3⟩,
           ⟨1, DisplayAttr.str "b", 1⟩, ⟨3, DisplayAttr.str "d", 0⟩]⟩,
          [Event.addDefault "a" 0, Event.addObject "c" 1,
            Event.addObject "b" 2, Event.addObject "d" 3]) ∧
      ((⟨none,
          [⟨0, DisplayAttr.str "a", 3⟩, ⟨2, DisplayAttr.str "c", 3⟩,
           ⟨1, DisplayAttr.str "b", 1⟩, ⟨3, DisplayAttr.str "d", 0⟩]⟩ :
            ControlManager).control_interfaces =
        sortInterfaces
          [⟨0, DisplayAttr.str "a", 3⟩, ⟨1, DisplayAttr.str "b", 1⟩,
           ⟨2, DisplayAttr.str "c", 3⟩, ⟨3, DisplayAttr.str "d", 0⟩]) :=
  ⟨by rfl,
    (c7_registry_sorted
      [⟨0, DisplayAttr.str "a", 3⟩, ⟨1, DisplayAttr.str "b", 1⟩,
       ⟨2, DisplayAttr.str "c", 3⟩, ⟨3, DisplayAttr.str "d", 0⟩] _ _
      (by rfl) (by decide)).1⟩

/-- Claim C8 (confirmed): immediately after a successful construction no
mode is active and `teleopPeriodic` is a no-op that invokes no mode hook. -/
theorem c8_no_premature_tick (l : List ControlInterface)
    (st : ControlManager) (ev : List Event)
    (h : ControlManager.init l = Except.ok (st, ev)) :
    st.control_mode = none ∧ ControlManager.teleopPeriodic st = [] := by
  simp only [ControlManager.init] at h
  split at h
  · cases h
  · first
    | exact ⟨rfl, rfl⟩
    | (simp only [Except.ok.injEq, Prod.mk.injEq] at h
       rw [← h.1]
       exact ⟨rfl, rfl⟩)

/-- Witness for C8 at a concrete one-mode construction. -/
theorem c8_no_premature_tick_witness :
    (⟨none, [⟨0, DisplayAttr.str "A", 0⟩]⟩ :
        ControlManager).control_mode = none ∧
      ControlManager.teleopPeriodic
        ⟨none, [⟨0, DisplayAttr.str "A", 0⟩]⟩ = [] :=
  c8_no_premature_tick [⟨0, DisplayAttr.str "A", 0⟩]
    ⟨none, [⟨0, DisplayAttr.str "A", 0⟩]⟩ [Event.addDefault "A" 0] (by rfl)

/-- Claim C9 (confirmed): from any state whose active pointer is absent or
a registry member — which holds for every state a successful construction
produces, since construction leaves the pointer absent — every returning
sequence of selection callbacks and ticks preserves that invariant, leaves
the registry unchanged, and never clears an active pointer (no deselect
transition exists). -/
theorem c9_active_inv (st : ControlManager) (ops : List Op)
    (st2 : ControlManager) (ev : List Event) (hinv : ActiveInv st)
    (hrun : runOps st ops = Except.ok (st2, ev)) :
    ActiveInv st2 ∧ st2.control_interfaces = st.control_interfaces ∧
      (st.control_mode ≠ none → st2.control_mode ≠ none) := by
  rcases runOps_stepFacts ops st st2 ev hrun with ⟨hci, hcm⟩
  refine ⟨?_, hci, ?_⟩
  · rcases hcm with hcm | ⟨m, hm, hcm⟩
    · rcases hinv with hnone | ⟨m, hm, hmem⟩
      · exact Or.inl (hcm.trans hnone)
      · refine Or.inr ⟨m, hcm.trans hm, ?_⟩
        rw [hci]
        exact hmem
    · refine Or.inr ⟨m, hcm, ?_⟩
      rw [hci]
      exact hm
  · intro hne
    rcases hcm with hcm | ⟨m, hm, hcm⟩
    · rw [hcm]
      exact hne
    · rw [hcm]
      exact fun hc => Option.noConfusion hc

/-- Witness for C9: a freshly constructed one-mode manager, driven through
a selection and a tick. -/
theorem c9_active_inv_witness :
    (ActiveInv ⟨some ⟨0, DisplayAttr.str "A", 0⟩,
        [⟨0, DisplayAttr.str "A", 0⟩]⟩ ∧
      (⟨some ⟨0, DisplayAttr.str "A", 0⟩, [⟨0, DisplayAttr.str "A", 0⟩]⟩ :
        ControlManager).control_interfaces =
        (⟨none, [⟨0, DisplayAttr.str "A", 0⟩]⟩ :
          ControlManager).control_interfaces ∧
      ((⟨none, [⟨0, DisplayAttr.str "A", 0⟩]⟩ :
          ControlManager).control_mode ≠ none →
        (⟨some ⟨0, DisplayAttr.str "A", 0⟩, [⟨0, DisplayAttr.str "A", 0⟩]⟩ :
          ControlManager).control_mode ≠ none)) :=
  c9_active_inv ⟨none, [⟨0, DisplayAttr.str "A", 0⟩]⟩
    [Op.select (some 0), Op.tick]
    ⟨some ⟨0, DisplayAttr.str "A", 0⟩, [⟨0, DisplayAttr.str "A", 0⟩]⟩
    [Event.enabled 0, Event.teleopPeriodic 0] (Or.inl rfl) (by rfl)

/-- Claim C10 (confirmed): `control_mode_changed` guards only the upper
bound. For every negative id: no invalid-selection error is ever logged;
if `-len ≤ id < 0` the lookup resolves to the mode at position `len + id`
and the usual reselection/transition protocol runs; if `id < -len` the
registry lookup raises `IndexError` to the caller. -/
theorem c10_negative_ids (st : ControlManager) (v : Int) (hv : v < 0) :
    (∀ st2 ev, control_mode_changed st (some v) = Except.ok (st2, ev) →
        ∀ w, Event.logErrorInvalidControlMode w ∉ ev) ∧
      (0 ≤ (st.control_interfaces.length : Int) + v →
        ∃ b, pyGetElem st.control_interfaces v = some b ∧
          st.control_interfaces.get?
              ((st.control_interfaces.length : Int) + v).toNat = some b ∧
          control_mode_changed st (some v) =
            (if st.control_mode = some b then
              Except.ok (st, [])
            else
              Except.ok ({ st with control_mode := some b },
                (match st.control_mode with
                  | some a => [Event.disabled a.id]
                  | none => []) ++ [Event.enabled b.id]))) ∧
      ((st.control_interfaces.length : Int) + v < 0 →
        control_mode_changed st (some v) = Except.error PyError.indexError) := by
  have hg : ¬ ((st.control_interfaces.length : Int) ≤ v) := by omega
  refine ⟨?_, ?_, ?_⟩
  · intro st2 ev h w
    simp only [control_mode_changed, if_neg hg] at h
    split at h
    · cases h
    · rename_i m heq
      split at h
      · have hev : ev = [] := by
          first
          | rfl
          | (simp only [Except.ok.injEq, Prod.mk.injEq] at h
             exact h.2.symm)
        rw [hev]
        simp
      · have hev : ev = (match st.control_mode with
            | some a => [Event.disabled a.id]
            | none => []) ++ [Event.enabled m.id] := by
          first
          | rfl
          | (simp only [Except.ok.injEq, Prod.mk.injEq] at h
             exact h.2.symm)
        rw [hev]
        cases st.control_mode <;> simp
  · intro hin
    rcases pyGetElem_neg hv hin with ⟨b, hpy, hget⟩
    exact ⟨b, hpy, hget, control_mode_changed_resolved st v b hpy⟩
  · intro hout
    simp only [control_mode_changed, if_neg hg, pyGetElem_oob hout]

/-- Witness for C10: a two-mode manager and the id `-3`, below `-len`,
raising `IndexError`. -/
theorem c10_negative_ids_witness :
    ((-3 : Int) < 0) ∧
      control_mode_changed
        ⟨none, [⟨0, DisplayAttr.str "A", 0⟩, ⟨1, DisplayAttr.str "B", 0⟩]⟩
        (some (-3)) = Except.error PyError.indexError :=
  ⟨by decide,
    (c10_negative_ids
      ⟨none, [⟨0, DisplayAttr.str "A", 0⟩, ⟨1, DisplayAttr.str "B", 0⟩]⟩
      (-3) (by decide)).2.2 (by decide)⟩
